import Mathlib

set_option maxHeartbeats 1000000
set_option linter.unusedVariables false

namespace GdextSpec

/-- The host engine generic value representation (Variant). -/
inductive Variant where
  | nil
  | int (i : Int)
  | str (s : String)
deriving DecidableEq

/-- Defunctionalized Rust callable body registered with the host dispatch table.
From the source (typed_signal.rs): connect_g wraps a plain function or closure;
connect and connect_self wrap a method that is invoked under bind_mut on a
receiver object. -/
inductive GodotFn where
  | plain (functionId : Nat)
  | boundMut (receiverId : Nat) (methodId : Nat)
deriving DecidableEq

/-- A named, dynamically invocable unit (CallableAdapter) produced per connection.
The id is the host-assigned identity of the callable object; the name is derived
from the receiver type for diagnostics. -/
structure Callable where
  id : Nat
  name : String
  fn : GodotFn
deriving DecidableEq

/-- One registered association between an event name and a CallableAdapter,
with dispatch flags. -/
structure Connection where
  signal : String
  callable : Callable
  flags : Nat
deriving DecidableEq

/-- Runtime guard discipline on one host object: at most one outstanding mutable
guard, or arbitrarily many immutable guards (spec sections 4.1 and 5). -/
inductive GuardState where
  | free
  | shared (n : Nat)
  | exclusive
deriving DecidableEq

/-- Modelled from the spec: the state the host runtime keeps per object — lifetime
category (auto-counted or manually managed), current reference count, outstanding
guard state, the per-signal dispatch table, one representative engine property
(position), and the base back-reference stored in the embedded user state. -/
structure HostObject where
  refcounted : Bool
  refcount : Nat
  guard : GuardState
  connections : List Connection
  position : Variant
  baseRef : Option Nat
deriving DecidableEq

/-- Modelled from the spec: the host runtime — a table from stable identity to
object state, fresh-identity and fresh-callable counters, and the queue of
surplus references the host releases on its next execution cycle. -/
structure Host where
  objects : List (Nat × HostObject)
  nextObjectId : Nat
  nextCallableId : Nat
  pendingUnref : List Nat
deriving DecidableEq

/-- Lookup in the identity table (first entry with the given identity). -/
def findObj : List (Nat × HostObject) → Nat → Option HostObject
  | [], _ => none
  | p :: rest, id => if p.1 = id then some p.2 else findObj rest id

/-- Replace the first entry with the given identity. -/
def updateObj : List (Nat × HostObject) → Nat → HostObject → List (Nat × HostObject)
  | [], _, _ => []
  | p :: rest, id, o => if p.1 = id then (id, o) :: rest else p :: updateObj rest id o

def Host.lookupObj (h : Host) (id : Nat) : Option HostObject :=
  findObj h.objects id

def Host.setObj (h : Host) (id : Nat) (o : HostObject) : Host :=
  { h with objects := updateObj h.objects id o }

/-- Teardown of an object: its identity disappears from the host table. -/
def Host.removeObj (h : Host) (id : Nat) : Host :=
  { h with objects := h.objects.filter (fun p => p.1 != id) }

/-- Modelled from the spec (section 6): is-identity-still-valid. -/
def Host.isIdentityValid (h : Host) (id : Nat) : Bool :=
  (h.lookupObj id).isSome

/-- Modelled from the spec (section 6): get-reference-count. -/
def Host.getReferenceCount (h : Host) (id : Nat) : Option Nat :=
  (h.lookupObj id).map (fun o => o.refcount)

def Host.empty : Host :=
  ⟨[], 0, 0, []⟩

/-- Modelled from the spec: allocate a fresh host object with the given lifetime
category and initial reference count; its base back-reference initially points to
itself, as set up by the construction entry point. -/
def Host.createObject (h : Host) (refcounted : Bool) (initialCount : Nat) : Host × Nat :=
  let id := h.nextObjectId
  ({ h with
      objects := h.objects ++ [(id, ⟨refcounted, initialCount, .free, [], .nil, some id⟩)],
      nextObjectId := id + 1 },
    id)

/-- Modelled from the spec (sections 4.2 and 7): host-side construction of an
auto-counted object. The construction path may hold a temporary surplus
reference (refcount two instead of one); the surplus is queued and released by
the host on its next execution cycle, not synchronously. -/
def Host.instantiateAuto (h : Host) (surplus : Bool) : Host × Nat :=
  let p := h.createObject true (if surplus then 2 else 1)
  (if surplus then { p.1 with pendingUnref := p.1.pendingUnref ++ [p.2] } else p.1, p.2)

/-- Modelled from the spec (section 6): instantiate-object-by-class-name, the
host-side construction entry point. -/
def Host.instantiateByClassName (h : Host) (className : String) (surplus : Bool) : Host × Nat :=
  h.instantiateAuto surplus

/-- Modelled from the spec: user-code construction of an auto-counted object
(new_gd); it funnels through the same construction path as engine-side
instantiation. -/
def Host.newGd (h : Host) (surplus : Bool) : Host × Nat :=
  h.instantiateAuto surplus

/-- Modelled from the spec: increment the reference count of an auto-counted
object. -/
def Host.incRef (h : Host) (id : Nat) : Host :=
  match h.lookupObj id with
  | none => h
  | some o => h.setObj id { o with refcount := o.refcount + 1 }

/-- Modelled from the spec: decrement the reference count of an auto-counted
object, destroying the object when the count reaches zero. -/
def Host.decRef (h : Host) (id : Nat) : Host :=
  match h.lookupObj id with
  | none => h
  | some o => if o.refcount ≤ 1 then h.removeObj id else h.setObj id { o with refcount := o.refcount - 1 }

/-- Modelled from the spec (section 5): one host execution cycle boundary — the
host releases every queued surplus reference (deferred dec-refs), then clears
the queue. -/
def Host.processFrame (h : Host) : Host :=
  { h.pendingUnref.foldl Host.decRef h with pendingUnref := [] }

-- ----------------------------------------------------------------------------
-- Handle (Gd) operations
-- ----------------------------------------------------------------------------

/-- Error kinds of the fatal runtime checks (spec section 7). -/
inductive AccessError where
  | destroyed
  | guardConflict
deriving DecidableEq

/-- Modelled from the spec: a typed Handle (Gd) to a host object. It caches the
stable identity separately from the host table, so the identity it reports is
independent of later mutation of the referenced object state. -/
structure Gd where
  cachedId : Nat
deriving DecidableEq

/-- Modelled from the spec (section 4.1): a base-class method call through a
Handle (get_position); validates liveness lazily and fails fatally on a
destroyed object. -/
def Gd.getPosition (h : Host) (g : Gd) : Except AccessError Variant :=
  match h.lookupObj g.cachedId with
  | none => .error .destroyed
  | some o => .ok o.position

/-- Modelled from the spec (section 4.1): a base-class property write through a
Handle (set_position). -/
def Gd.setPosition (h : Host) (g : Gd) (v : Variant) : Except AccessError Host :=
  match h.lookupObj g.cachedId with
  | none => .error .destroyed
  | some o => .ok (h.setObj g.cachedId { o with position := v })

/-- Modelled from the spec (section 4.1): guarded read access (bind). Fails on a
destroyed object or while a mutable guard is outstanding; otherwise one more
immutable guard becomes outstanding. -/
def Gd.bind (h : Host) (g : Gd) : Except AccessError Host :=
  match h.lookupObj g.cachedId with
  | none => .error .destroyed
  | some o =>
    match o.guard with
    | .exclusive => .error .guardConflict
    | .free => .ok (h.setObj g.cachedId { o with guard := .shared 1 })
    | .shared n => .ok (h.setObj g.cachedId { o with guard := .shared (n + 1) })

/-- Modelled from the spec (section 4.1): guarded write access (bind_mut). Fails
on a destroyed object or while any guard is outstanding; otherwise the mutable
guard becomes outstanding. -/
def Gd.bindMut (h : Host) (g : Gd) : Except AccessError Host :=
  match h.lookupObj g.cachedId with
  | none => .error .destroyed
  | some o =>
    match o.guard with
    | .free => .ok (h.setObj g.cachedId { o with guard := .exclusive })
    | _ => .error .guardConflict

/-- Modelled from the spec (section 4.1): the identity query (instance_id);
validates liveness, then reports the cached stable identity. -/
def Gd.instanceId (h : Host) (g : Gd) : Except AccessError Nat :=
  if h.isIdentityValid g.cachedId then .ok g.cachedId else .error .destroyed

/-- Modelled from the spec (section 4.1): clone. For an auto-counted object the
host reference count is incremented; for a manually managed object the pointer
is copied without refcount effects. The clone carries the identical cached
identity. Fails fatally on a destroyed object. -/
def Gd.clone (h : Host) (g : Gd) : Except AccessError (Host × Gd) :=
  match h.lookupObj g.cachedId with
  | none => .error .destroyed
  | some o => .ok (if o.refcounted then h.incRef g.cachedId else h, ⟨g.cachedId⟩)

/-- Modelled from the spec: upcast to the host base class; validates liveness and
yields a Handle with the same cached identity. -/
def Gd.upcast (h : Host) (g : Gd) : Except AccessError Gd :=
  if h.isIdentityValid g.cachedId then .ok ⟨g.cachedId⟩ else .error .destroyed

/-- Modelled from the spec (sections 4.1 and 6): explicit destroy (free) of a
manually managed object; requests host-side teardown. The free call on a live
object completes without a fatal error; freeing an already destroyed identity
fails. -/
def Gd.free (h : Host) (g : Gd) : Except AccessError Host :=
  if h.isIdentityValid g.cachedId then .ok (h.removeObj g.cachedId) else .error .destroyed

/-- Modelled from the spec: drop of a Handle to an auto-counted object —
decrements the host reference count, destroying the object at zero. -/
def Gd.dropRef (h : Host) (g : Gd) : Host :=
  match h.lookupObj g.cachedId with
  | none => h
  | some o => if o.refcounted then h.decRef g.cachedId else h

/-- Modelled from the spec: read, through a BaseField that refers to the host
object with the given identity, a base property of that object (get_position).
Every access validates liveness of the referenced object. -/
def Host.baseGetPosition (h : Host) (refId : Nat) : Except AccessError Variant :=
  match h.lookupObj refId with
  | none => .error .destroyed
  | some o => .ok o.position

/-- Modelled from the spec: the identity currently referenced by the base field
stored inside the user state of the object with the given identity. -/
def Host.baseFieldOf (h : Host) (id : Nat) : Option Nat :=
  (h.lookupObj id).bind (fun o => o.baseRef)

/-- Modelled from the spec (section 4.2): swap the base fields of two live user
objects, exchanging which host object each field refers to. The cached identity
inside any previously derived Handle is not touched. -/
def Host.swapBases (h : Host) (idA idB : Nat) : Host :=
  match h.lookupObj idA, h.lookupObj idB with
  | some a, some b => (h.setObj idA { a with baseRef := b.baseRef }).setObj idB { b with baseRef := a.baseRef }
  | _, _ => h

-- ----------------------------------------------------------------------------
-- BaseField lifecycle (spec section 4.2)
-- ----------------------------------------------------------------------------

/-- Lifecycle states of a BaseField (spec section 4.2). -/
inductive BaseLifecycle where
  | uninitialized
  | underConstruction
  | live
  | destroyed
deriving DecidableEq

/-- Modelled from the spec: the base back-reference a user object embeds, with
its lifecycle state and the identity of the referenced host object. -/
structure BaseField where
  state : BaseLifecycle
  refId : Nat
deriving DecidableEq

/-- Error kinds of the fatal construction-phase checks (spec sections 4.2, 7). -/
inductive InitAccessError where
  | outsideInit
  | insideInit
  | baseDestroyed
deriving DecidableEq

/-- Modelled from the spec (section 4.2): the construction-time accessor
(as_init_gd / to_init_gd). Legal only while the field is UnderConstruction;
calling it in any other state is a fatal error in debug builds. -/
def BaseField.asInitGd (b : BaseField) : Except InitAccessError Gd :=
  match b.state with
  | .underConstruction => .ok ⟨b.refId⟩
  | _ => .error .outsideInit

/-- Modelled from the spec (section 4.2): the post-construction accessor
(WithBaseField::to_gd). Legal only once the field is Live; a fatal error while
still UnderConstruction, and after the referenced object is Destroyed. -/
def BaseField.toGd (b : BaseField) : Except InitAccessError Gd :=
  match b.state with
  | .live => .ok ⟨b.refId⟩
  | .underConstruction => .error .insideInit
  | _ => .error .baseDestroyed

/-- Modelled from the spec (sections 4.2 and 6): the construction entry point
(Gd::from_init_fn). A fresh host object is created, the constructing callback
runs with the base in the UnderConstruction state, and when the callback
returns, construction finalizes: if the referenced host object was destroyed in
the meantime, finalization raises the fatal base-destroyed error; otherwise the
field becomes Live and the finished Handle is produced. -/
def Host.fromInitFn (h : Host) (refcounted : Bool) (callback : Host → Nat → Host) : Except InitAccessError (Host × Gd) :=
  let p := h.createObject refcounted 1
  let h2 := callback p.1 p.2
  if h2.isIdentityValid p.2 then .ok (h2, ⟨p.2⟩) else .error .baseDestroyed

-- ----------------------------------------------------------------------------
-- Signal layer, embedded from src/godot-core/src/registry/signal/typed_signal.rs
-- ----------------------------------------------------------------------------

/-- A statically typed receiver (function, closure or method). The name of its
Rust type and the defunctionalized body identity stand in for the generic
parameter F of the source. -/
structure Receiver where
  typeName : String
  functionId : Nat
deriving DecidableEq

/-- Modelled from the spec (section 3): the adapter name is derived
deterministically from the receiver type (make_callable_name). -/
def makeCallableName (typeName : String) : String :=
  String.append "cb_" typeName

/-- Modelled from the spec (section 3): Callable::from_local_fn — produce a fresh
CallableAdapter for this connection, carrying a host-unique callable identity
and the diagnostic name. -/
def Host.fromLocalFn (h : Host) (name : String) (fn : GodotFn) : Host × Callable :=
  ({ h with nextCallableId := h.nextCallableId + 1 }, ⟨h.nextCallableId, name, fn⟩)

/-- Modelled from the spec (section 6): the host connect(object, event-name,
callable, flags) operation — registers the adapter at the end of the dispatch
table of the object. -/
def Host.connectAppend (h : Host) (objId : Nat) (signal : String) (c : Callable) (flags : Nat) : Host :=
  match h.lookupObj objId with
  | none => h
  | some o => h.setObj objId { o with connections := o.connections ++ [⟨signal, c, flags⟩] }

/-- Result of invoking one registered adapter during a dispatch. -/
inductive CallResult where
  | invoked
  | guardConflict
  | receiverDestroyed
deriving DecidableEq

/-- One adapter invocation performed by the host named-event dispatch. -/
structure InvokeEvent where
  callableId : Nat
  fn : GodotFn
  args : List Variant
  result : CallResult
deriving DecidableEq

/-- Invoke one CallableAdapter with the given untyped arguments. A plain
receiver runs directly; a bound-method receiver first acquires the exclusive
mutable guard (bind_mut) on its receiver object for the duration of the call,
which fails fatally if the object is destroyed or any guard is outstanding. -/
def invokeCallable (h : Host) (c : Callable) (args : List Variant) : InvokeEvent :=
  match c.fn with
  | .plain fid => ⟨c.id, .plain fid, args, .invoked⟩
  | .boundMut rid mid =>
    match h.lookupObj rid with
    | none => ⟨c.id, .boundMut rid mid, args, .receiverDestroyed⟩
    | some o =>
      match o.guard with
      | .free => ⟨c.id, .boundMut rid mid, args, .invoked⟩
      | _ => ⟨c.id, .boundMut rid mid, args, .guardConflict⟩

/-- Modelled from the spec (sections 4.3 and 6): the host named-event dispatch
(emit_signal) — synchronously invokes every currently connected adapter
registered under the event name, in registration order, each with the same
untyped argument array. The returned trace lists the invocations in order. -/
def Host.emitSignal (h : Host) (objId : Nat) (signal : String) (args : List Variant) : List InvokeEvent :=
  match h.lookupObj objId with
  | none => []
  | some o => (o.connections.filter (fun c => c.signal == signal)).map (fun c => invokeCallable h c.callable args)

/-- From the source: TypedSignal — the object (erased to its identity) together
with the event name; the parameter signature is tracked by the typed operations
below. -/
structure TypedSignal where
  objectId : Nat
  name : String
deriving DecidableEq

/-- From the source: the declared two-parameter signature (Int, String) standing
in for the generic parameter tuple Ps; to_variant_array packs the typed tuple
into the generic value array in declared parameter order. -/
def toVariantArray (p : Int × String) : List Variant :=
  [Variant.int p.1, Variant.str p.2]

/-- From the source: TypedSignal::emit_tuple — takes exclusive mutable access to
the signal object (the receiver of with_object_mut), packs the typed arguments
with to_variant_array, and invokes the host named-event dispatch under the
signal name. -/
def TypedSignal.emitTuple (s : TypedSignal) (args : Int × String) (h : Host) : List InvokeEvent :=
  h.emitSignal s.objectId s.name (toVariantArray args)

/-- From the source: TypedSignal::inner_connect_godot_fn — derives the callable
name from F, wraps the Rust function in a fresh Callable (from_local_fn), and
registers it with the host connect under the signal name (default flags). -/
def TypedSignal.innerConnectGodotFn (s : TypedSignal) (recvTypeName : String) (fn : GodotFn) (h : Host) : Host :=
  let p := h.fromLocalFn (makeCallableName recvTypeName) fn
  p.1.connectAppend s.objectId s.name p.2 0

/-- From the source: TypedSignal::connect_g — connect a non-member function,
wrapping it in a godot_fn that calls the function with the converted
arguments. -/
def TypedSignal.connectG (s : TypedSignal) (f : Receiver) (h : Host) : Host :=
  s.innerConnectGodotFn f.typeName (.plain f.functionId) h

/-- From the source: TypedSignal::connect — connect a method with a Gd receiver
object (not self); the godot_fn acquires bind_mut on the receiver object and
calls the method on the guarded instance. -/
def TypedSignal.connect (s : TypedSignal) (receiverObjId : Nat) (m : Receiver) (h : Host) : Host :=
  s.innerConnectGodotFn m.typeName (.boundMut receiverObjId m.functionId) h

/-- From the source: TypedSignal::connect_self — connect a method with self as
receiver; the receiver object is the signal object itself
(self.object.to_owned_object), and the godot_fn acquires bind_mut on it. -/
def TypedSignal.connectSelf (s : TypedSignal) (m : Receiver) (h : Host) : Host :=
  s.innerConnectGodotFn m.typeName (.boundMut s.objectId m.functionId) h

/-- From the source: TypedSignal::inner_connect_untyped — registers an untyped
callable through the host connect_ex, applying the flags when present (the
host default flags value is zero). -/
def TypedSignal.innerConnectUntyped (s : TypedSignal) (c : Callable) (flags : Option Nat) (h : Host) : Host :=
  h.connectAppend s.objectId s.name c (flags.getD 0)

/-- From the source: TypedSignal::connect_builder — seeds a ConnectBuilder with
this signal and no accumulated flags. -/
structure ConnectBuilder where
  signal : TypedSignal
  flags : Option Nat
deriving DecidableEq

def TypedSignal.connectBuilder (s : TypedSignal) : ConnectBuilder :=
  ⟨s, none⟩

/-- Modelled from the spec (section 4.4): the flags configuration step of the
builder (deferred / cross-thread / one-shot dispatch value). -/
def ConnectBuilder.withFlags (b : ConnectBuilder) (f : Nat) : ConnectBuilder :=
  ⟨b.signal, some f⟩

/-- Modelled from the spec (section 4.4): ConnectBuilder::done — the terminal
operation. It builds the CallableAdapter for the receiver exactly as the direct
connect path does (name derivation plus from_local_fn), then performs the
registration through inner_connect_untyped with the accumulated flags. -/
def ConnectBuilder.done (b : ConnectBuilder) (f : Receiver) (h : Host) : Host :=
  let p := h.fromLocalFn (makeCallableName f.typeName) (.plain f.functionId)
  b.signal.innerConnectUntyped p.2 b.flags p.1

-- ----------------------------------------------------------------------------
-- Helper lemmas about the identity table
-- ----------------------------------------------------------------------------

theorem findObj_append_none (l1 l2 : List (Nat × HostObject)) (id : Nat)
    (h : findObj l1 id = none) : findObj (l1 ++ l2) id = findObj l2 id := by
  induction l1 with
  | nil => simp
  | cons p rest ih =>
    simp only [findObj] at h ⊢
    by_cases hp : p.1 = id
    · simp [hp] at h
    · simp only [hp, if_false] at h ⊢
      exact ih h

theorem findObj_append_last_isSome (l : List (Nat × HostObject)) (id : Nat) (o : HostObject) :
    (findObj (l ++ [(id, o)]) id).isSome = true := by
  induction l with
  | nil => simp [findObj]
  | cons p rest ih =>
    simp only [List.cons_append, findObj]
    by_cases hp : p.1 = id
    · simp [hp]
    · simpa [hp] using ih

theorem findObj_updateObj_self (l : List (Nat × HostObject)) (id : Nat) (o : HostObject)
    (h : (findObj l id).isSome = true) : findObj (updateObj l id o) id = some o := by
  induction l with
  | nil => simp [findObj] at h
  | cons p rest ih =>
    simp only [findObj, updateObj] at h ⊢
    by_cases hp : p.1 = id
    · simp [hp, findObj]
    · simp only [hp, if_false, findObj] at h ⊢
      exact ih h

theorem findObj_updateObj_ne (l : List (Nat × HostObject)) (id j : Nat) (o : HostObject)
    (hne : id ≠ j) : findObj (updateObj l id o) j = findObj l j := by
  induction l with
  | nil => simp [findObj, updateObj]
  | cons p rest ih =>
    simp only [updateObj]
    by_cases hp : p.1 = id
    · simp [findObj, hp, hne]
    · simp only [hp, if_false, findObj]
      by_cases hj : p.1 = j
      · simp [hj]
      · simp [hj, ih]

theorem findObj_filter_out (l : List (Nat × HostObject)) (id : Nat) :
    findObj (l.filter (fun p => p.1 != id)) id = none := by
  induction l with
  | nil => simp [findObj]
  | cons p rest ih =>
    rw [List.filter_cons]
    by_cases hp : p.1 = id
    · simp [hp, ih]
    · simp [hp, findObj, ih]

theorem lookupObj_setObj_self (h : Host) (id : Nat) (o o0 : HostObject)
    (hl : h.lookupObj id = some o0) : (h.setObj id o).lookupObj id = some o := by
  apply findObj_updateObj_self
  simp [Host.lookupObj] at hl
  simp [hl]

theorem lookupObj_setObj_ne (h : Host) (id j : Nat) (o : HostObject) (hne : id ≠ j) :
    (h.setObj id o).lookupObj j = h.lookupObj j :=
  findObj_updateObj_ne h.objects id j o hne

theorem lookupObj_removeObj_self (h : Host) (id : Nat) :
    (h.removeObj id).lookupObj id = none :=
  findObj_filter_out h.objects id

theorem lookupObj_createObject_self (h : Host) (rc : Bool) (n : Nat)
    (hfresh : h.lookupObj h.nextObjectId = none) :
    (h.createObject rc n).1.lookupObj h.nextObjectId
      = some ⟨rc, n, .free, [], .nil, some h.nextObjectId⟩ := by
  simp only [Host.createObject, Host.lookupObj]
  rw [findObj_append_none _ _ _ hfresh]
  simp [findObj]

theorem isIdentityValid_createObject (h : Host) (rc : Bool) (n : Nat) :
    (h.createObject rc n).1.isIdentityValid h.nextObjectId = true := by
  simp only [Host.createObject, Host.isIdentityValid, Host.lookupObj]
  exact findObj_append_last_isSome h.objects h.nextObjectId _

theorem invokeCallable_args (h : Host) (c : Callable) (args : List Variant) :
    (invokeCallable h c args).args = args := by
  unfold invokeCallable
  split
  · rfl
  · split
    · rfl
    · split <;> rfl

-- ----------------------------------------------------------------------------
-- Claim theorems
-- ----------------------------------------------------------------------------

/-- Claim C4: calling the construction-time accessor of a BaseField after
construction has completed (state Live), and calling the post-construction
accessor while the constructing callback is still running (state
UnderConstruction), each deterministically raise a fatal error in debug
builds. -/
theorem init_accessor_phase_errors (b1 b2 : BaseField)
    (h1 : b1.state = .live) (h2 : b2.state = .underConstruction) :
    b1.asInitGd = .error .outsideInit ∧ b2.toGd = .error .insideInit := by
  constructor
  · simp [BaseField.asInitGd, h1]
  · simp [BaseField.toGd, h2]

/-- Witness for the C4 theorem at concrete BaseFields in each offending state. -/
theorem init_accessor_phase_errors_witness :
    (BaseField.mk .live 7).state = .live
    ∧ (BaseField.mk .underConstruction 7).state = .underConstruction
    ∧ ((BaseField.mk .live 7).asInitGd = .error .outsideInit
       ∧ (BaseField.mk .underConstruction 7).toGd = .error .insideInit) :=
  ⟨by decide, by decide,
    init_accessor_phase_errors (BaseField.mk .live 7) (BaseField.mk .underConstruction 7)
      (by decide) (by decide)⟩

/-- Claim C2: after destroy is called through one Handle, every other Handle or
BaseField sharing the same cached identity fails fatally on its next access,
and it fails identically (with the destroyed error) for base-method calls,
guarded read and guarded write access, identity query, clone, and upcast. -/
theorem destroy_invalidates_all_aliases (h : Host) (id : Nat) (o : HostObject) (g1 g2 : Gd)
    (hl : h.lookupObj id = some o) (e1 : g1.cachedId = id) (e2 : g2.cachedId = id) :
    Gd.free h g1 = .ok (h.removeObj id)
    ∧ Gd.getPosition (h.removeObj id) g2 = .error .destroyed
    ∧ Gd.bind (h.removeObj id) g2 = .error .destroyed
    ∧ Gd.bindMut (h.removeObj id) g2 = .error .destroyed
    ∧ Gd.instanceId (h.removeObj id) g2 = .error .destroyed
    ∧ Gd.clone (h.removeObj id) g2 = .error .destroyed
    ∧ Gd.upcast (h.removeObj id) g2 = .error .destroyed
    ∧ Host.baseGetPosition (h.removeObj id) id = .error .destroyed := by
  have hrm := lookupObj_removeObj_self h id
  refine ⟨?_, ?_, ?_, ?_, ?_, ?_, ?_, ?_⟩
  · simp [Gd.free, Host.isIdentityValid, e1, hl]
  · simp [Gd.getPosition, e2, hrm]
  · simp [Gd.bind, e2, hrm]
  · simp [Gd.bindMut, e2, hrm]
  · simp [Gd.instanceId, Host.isIdentityValid, e2, hrm]
  · simp [Gd.clone, e2, hrm]
  · simp [Gd.upcast, Host.isIdentityValid, e2, hrm]
  · simp [Host.baseGetPosition, hrm]

/-- Witness for the C2 theorem on a concrete one-object host. -/
theorem destroy_invalidates_all_aliases_witness :
    (Host.empty.createObject false 1).1.lookupObj 0 = some ⟨false, 1, .free, [], .nil, some 0⟩
    ∧ Gd.bindMut ((Host.empty.createObject false 1).1.removeObj 0) ⟨0⟩ = .error .destroyed :=
  ⟨by decide,
    (destroy_invalidates_all_aliases (Host.empty.createObject false 1).1 0
      ⟨false, 1, .free, [], .nil, some 0⟩ ⟨0⟩ ⟨0⟩ (by decide) rfl rfl).2.2.2.1⟩

/-- Claim C3: swapping the BaseFields of two live user objects exchanges which
host object each field refers to, while each enclosing Handle still reports its
original cached identity; after the swap, each object base field reports the
other object original identity. -/
theorem swap_bases_preserves_handle_identity (h : Host) (a b : Nat) (oa ob : HostObject)
    (hne : a ≠ b) (ha : h.lookupObj a = some oa) (hb : h.lookupObj b = some ob)
    (hra : oa.baseRef = some a) (hrb : ob.baseRef = some b) :
    Gd.instanceId (h.swapBases a b) ⟨a⟩ = .ok a
    ∧ Gd.instanceId (h.swapBases a b) ⟨b⟩ = .ok b
    ∧ (h.swapBases a b).baseFieldOf a = some b
    ∧ (h.swapBases a b).baseFieldOf b = some a := by
  have hswap : h.swapBases a b
      = (h.setObj a { oa with baseRef := ob.baseRef }).setObj b { ob with baseRef := oa.baseRef } := by
    simp [Host.swapBases, ha, hb]
  have hla : (h.swapBases a b).lookupObj a = some { oa with baseRef := some b } := by
    rw [hswap, lookupObj_setObj_ne _ b a _ (Ne.symm hne),
      lookupObj_setObj_self h a _ oa ha, hrb]
  have hlb : (h.swapBases a b).lookupObj b = some { ob with baseRef := some a } := by
    rw [hswap, lookupObj_setObj_self _ b _ ob, hra]
    rw [lookupObj_setObj_ne _ a b _ hne]
    exact hb
  refine ⟨?_, ?_, ?_, ?_⟩
  · simp [Gd.instanceId, Host.isIdentityValid, hla]
  · simp [Gd.instanceId, Host.isIdentityValid, hlb]
  · simp [Host.baseFieldOf, hla]
  · simp [Host.baseFieldOf, hlb]

/-- Witness for the C3 theorem on a concrete two-object host. -/
theorem swap_bases_preserves_handle_identity_witness :
    ((0 : Nat) ≠ 1
     ∧ ((Host.empty.createObject false 1).1.createObject false 1).1.lookupObj 0
        = some ⟨false, 1, .free, [], .nil, some 0⟩
     ∧ ((Host.empty.createObject false 1).1.createObject false 1).1.lookupObj 1
        = some ⟨false, 1, .free, [], .nil, some 1⟩)
    ∧ (((Host.empty.createObject false 1).1.createObject false 1).1.swapBases 0 1).baseFieldOf 0
        = some 1 :=
  ⟨⟨by decide, by decide, by decide⟩,
    (swap_bases_preserves_handle_identity ((Host.empty.createObject false 1).1.createObject false 1).1
      0 1 ⟨false, 1, .free, [], .nil, some 0⟩ ⟨false, 1, .free, [], .nil, some 1⟩
      (by decide) (by decide) (by decide) rfl rfl).2.2.1⟩

/-- Claim C10: freeing the host object backing a BaseField during the
constructing callback (through a handle extracted from the construction-time
accessor) completes without a fatal error; the fatal base-destroyed error is
raised only when the callback returns and construction finalizes. -/
theorem free_during_init_panics_at_finalize (h : Host) (rc : Bool) :
    (BaseField.mk .underConstruction (h.createObject rc 1).2).asInitGd
      = .ok ⟨(h.createObject rc 1).2⟩
    ∧ Gd.free (h.createObject rc 1).1 ⟨(h.createObject rc 1).2⟩
      = .ok ((h.createObject rc 1).1.removeObj (h.createObject rc 1).2)
    ∧ h.fromInitFn rc (fun hh id => hh.removeObj id) = .error .baseDestroyed := by
  have hid : (h.createObject rc 1).2 = h.nextObjectId := rfl
  refine ⟨rfl, ?_, ?_⟩
  · simp [Gd.free, hid, isIdentityValid_createObject]
  · simp only [Host.fromInitFn]
    have hdead : ((h.createObject rc 1).1.removeObj (h.createObject rc 1).2).isIdentityValid
        (h.createObject rc 1).2 = false := by
      simp [Host.isIdentityValid, lookupObj_removeObj_self]
    simp [hdead]

/-- Claim C6: for an auto-counted object, each Handle clone increments the host
reference count by exactly one (the clone carrying the identical cached
identity) and each Handle drop decrements it by exactly one; when the last
Handle is dropped the count reaches zero and the object is destroyed, its
identity becoming invalid. -/
theorem refcounted_clone_drop_balance (h : Host) (id n : Nat) (o : HostObject) (g : Gd)
    (hl : h.lookupObj id = some o) (hrc : o.refcounted = true) (hn : o.refcount = n)
    (hpos : 0 < n) (hg : g.cachedId = id) :
    Gd.clone h g = .ok (h.incRef id, ⟨id⟩)
    ∧ (h.incRef id).getReferenceCount id = some (n + 1)
    ∧ (Gd.dropRef (h.incRef id) ⟨id⟩).getReferenceCount id = some n
    ∧ (n = 1 → (Gd.dropRef h g).isIdentityValid id = false) := by
  have hinc : (h.incRef id).lookupObj id = some { o with refcount := n + 1 } := by
    simp only [Host.incRef, hl]
    rw [lookupObj_setObj_self h id { o with refcount := o.refcount + 1 } o hl, hn]
  have hnle : ¬ (n + 1 ≤ 1) := by omega
  have hdrop : Gd.dropRef (h.incRef id) ⟨id⟩ = (h.incRef id).setObj id { o with refcount := n } := by
    simp [Gd.dropRef, hinc, hrc, Host.decRef, hnle]
  refine ⟨?_, ?_, ?_, ?_⟩
  · simp [Gd.clone, hg, hl, hrc]
  · simp [Host.getReferenceCount, hinc]
  · rw [hdrop]
    have hx := lookupObj_setObj_self (h.incRef id) id { o with refcount := n }
      { o with refcount := n + 1 } hinc
    simp [Host.getReferenceCount, hx]
  · intro h1
    have hrem : Gd.dropRef h g = h.removeObj id := by
      simp [Gd.dropRef, hg, hl, hrc, Host.decRef, hn, h1]
    rw [hrem]
    simp [Host.isIdentityValid, lookupObj_removeObj_self]

/-- Witness for the C6 theorem on a concrete host holding one auto-counted
object with a single reference. -/
theorem refcounted_clone_drop_balance_witness :
    ((Host.empty.createObject true 1).1.lookupObj 0 = some ⟨true, 1, .free, [], .nil, some 0⟩
     ∧ (0 : Nat) < 1)
    ∧ ((Host.empty.createObject true 1).1.incRef 0).getReferenceCount 0 = some 2 :=
  ⟨⟨by decide, by decide⟩,
    (refcounted_clone_drop_balance (Host.empty.createObject true 1).1 0 1
      ⟨true, 1, .free, [], .nil, some 0⟩ ⟨0⟩ (by decide) rfl rfl (by decide) rfl).2.1⟩

/-- Claim C1: after constructing an auto-counted object (host-side by class name
or from user code), an immediate reference-count query returns one or two — two
exactly when the construction path holds its transient surplus reference — while
a query deferred past the next host execution cycle returns exactly one: the
surplus always resolves within one cycle. Both construction entry points funnel
through the same path. -/
theorem construction_refcount_surplus_settles (h : Host) (cn : String) (surplus : Bool)
    (hfresh : h.lookupObj h.nextObjectId = none) (hq : h.pendingUnref = []) :
    ((h.instantiateAuto surplus).1.getReferenceCount (h.instantiateAuto surplus).2 = some 1
      ∨ (h.instantiateAuto surplus).1.getReferenceCount (h.instantiateAuto surplus).2 = some 2)
    ∧ (surplus = true →
        (h.instantiateAuto surplus).1.getReferenceCount (h.instantiateAuto surplus).2 = some 2)
    ∧ ((h.instantiateAuto surplus).1.processFrame).getReferenceCount (h.instantiateAuto surplus).2
        = some 1
    ∧ h.instantiateByClassName cn surplus = h.instantiateAuto surplus
    ∧ h.newGd surplus = h.instantiateAuto surplus := by
  cases surplus with
  | false =>
    have hc1 := lookupObj_createObject_self h true 1 hfresh
    have hmain : (h.instantiateAuto false).1 = (h.createObject true 1).1 := rfl
    have hid : (h.instantiateAuto false).2 = h.nextObjectId := rfl
    have hpu : (h.createObject true 1).1.pendingUnref = [] := hq
    refine ⟨Or.inl ?_, by simp, ?_, rfl, rfl⟩
    · rw [hmain, hid]
      simp [Host.getReferenceCount, hc1]
    · rw [hmain, hid]
      simp only [Host.processFrame, hpu, List.foldl_nil]
      simp [Host.getReferenceCount, Host.lookupObj]
      simp only [Host.lookupObj] at hc1
      simp [hc1]
  | true =>
    have hc2 := lookupObj_createObject_self h true 2 hfresh
    have hid : (h.instantiateAuto true).2 = h.nextObjectId := rfl
    have hlook : (h.instantiateAuto true).1.lookupObj h.nextObjectId
        = some ⟨true, 2, .free, [], .nil, some h.nextObjectId⟩ := hc2
    have hpf : (h.instantiateAuto true).1.pendingUnref = [h.nextObjectId] := by
      show (h.createObject true 2).1.pendingUnref ++ [h.nextObjectId] = [h.nextObjectId]
      have hpu : (h.createObject true 2).1.pendingUnref = [] := hq
      rw [hpu]
      rfl
    have hnle : ¬ ((2 : Nat) ≤ 1) := by omega
    have hdec : Host.decRef (h.instantiateAuto true).1 h.nextObjectId
        = (h.instantiateAuto true).1.setObj h.nextObjectId ⟨true, 1, .free, [], .nil, some h.nextObjectId⟩ := by
      simp [Host.decRef, hlook, hnle]
    refine ⟨Or.inr ?_, fun _ => ?_, ?_, rfl, rfl⟩
    · rw [hid]
      simp [Host.getReferenceCount, hlook]
    · rw [hid]
      simp [Host.getReferenceCount, hlook]
    · rw [hid]
      simp only [Host.processFrame, hpf, List.foldl_cons, List.foldl_nil, hdec]
      have hx := lookupObj_setObj_self (h.instantiateAuto true).1 h.nextObjectId
        ⟨true, 1, .free, [], .nil, some h.nextObjectId⟩
        ⟨true, 2, .free, [], .nil, some h.nextObjectId⟩ hlook
      simp [Host.getReferenceCount, Host.lookupObj]
      simp only [Host.lookupObj] at hx
      simp [hx]

/-- Witness for the C1 theorem: engine-side instantiation on the empty host with
the surplus reference held. -/
theorem construction_refcount_surplus_settles_witness :
    (Host.empty.lookupObj Host.empty.nextObjectId = none ∧ Host.empty.pendingUnref = [])
    ∧ ((Host.empty.instantiateAuto true).1.processFrame).getReferenceCount
        (Host.empty.instantiateAuto true).2 = some 1 :=
  ⟨⟨by decide, by decide⟩,
    (construction_refcount_surplus_settles Host.empty "RefcBased" true
      (by decide) (by decide)).2.2.1⟩

/-- Claim C7: emit packs the typed argument tuple into the generic value array
in declared parameter order and invokes the host named-event dispatch, which
synchronously calls every currently connected adapter registered under the
event name, in registration order, each receiving the packed array. (The
exclusive mutable access emit_tuple takes on its target is the Rust receiver
mode of the source signature, modelled here by the explicit host argument.) -/
theorem emit_packs_and_dispatches_all (h : Host) (s : TypedSignal) (o : HostObject)
    (i : Int) (t : String) (hl : h.lookupObj s.objectId = some o) :
    s.emitTuple (i, t) h
      = (o.connections.filter (fun c => c.signal == s.name)).map
          (fun c => invokeCallable h c.callable [Variant.int i, Variant.str t])
    ∧ ∀ e ∈ s.emitTuple (i, t) h, e.args = [Variant.int i, Variant.str t] := by
  have hmain : s.emitTuple (i, t) h
      = (o.connections.filter (fun c => c.signal == s.name)).map
          (fun c => invokeCallable h c.callable [Variant.int i, Variant.str t]) := by
    simp [TypedSignal.emitTuple, Host.emitSignal, hl, toVariantArray]
  refine ⟨hmain, ?_⟩
  intro e he
  rw [hmain] at he
  rcases List.mem_map.mp he with ⟨c, hc, rfl⟩
  exact invokeCallable_args h c.callable _

/-- Witness for the C7 theorem: one connected adapter on a concrete host, the
emitted pair arriving packed in declared order. -/
theorem emit_packs_and_dispatches_all_witness :
    (TypedSignal.connectG ⟨0, "changed"⟩ ⟨"F", 3⟩ (Host.empty.createObject false 1).1).lookupObj 0
      = some ⟨false, 1, .free, [⟨"changed", ⟨0, "cb_F", .plain 3⟩, 0⟩], .nil, some 0⟩
    ∧ TypedSignal.emitTuple ⟨0, "changed"⟩ (5, "x")
        (TypedSignal.connectG ⟨0, "changed"⟩ ⟨"F", 3⟩ (Host.empty.createObject false 1).1)
      = [⟨0, .plain 3, [Variant.int 5, Variant.str "x"], .invoked⟩] :=
  ⟨by decide,
    ((emit_packs_and_dispatches_all
      (TypedSignal.connectG ⟨0, "changed"⟩ ⟨"F", 3⟩ (Host.empty.createObject false 1).1)
      ⟨0, "changed"⟩
      ⟨false, 1, .free, [⟨"changed", ⟨0, "cb_F", .plain 3⟩, 0⟩], .nil, some 0⟩
      5 "x" (by decide)).1).trans (by decide)⟩

/-- Unfolding lemma: connect_g bumps the callable counter and appends one
connection wrapping the receiver function to the dispatch table of the signal
object. -/
theorem connectG_eq (h : Host) (s : TypedSignal) (f : Receiver) (o : HostObject)
    (hl : h.lookupObj s.objectId = some o) :
    s.connectG f h
      = Host.setObj { h with nextCallableId := h.nextCallableId + 1 } s.objectId
          { o with connections := o.connections
            ++ [⟨s.name, ⟨h.nextCallableId, makeCallableName f.typeName, .plain f.functionId⟩, 0⟩] } := by
  have hb : ({ h with nextCallableId := h.nextCallableId + 1 } : Host).lookupObj s.objectId
      = some o := hl
  simp [TypedSignal.connectG, TypedSignal.innerConnectGodotFn, Host.fromLocalFn,
    Host.connectAppend, hb]

/-- Claim C5: connect performs no de-duplication — connecting the same receiver
twice registers two independent adapters (fresh callable identities wrapping
the same receiver function), and a single emit then invokes the receiver
twice, in connection order. -/
theorem connect_no_dedup_double_invoke (h : Host) (s : TypedSignal) (f : Receiver)
    (o : HostObject) (args : List Variant)
    (hl : h.lookupObj s.objectId = some o) (hc : o.connections = []) :
    (s.connectG f (s.connectG f h)).lookupObj s.objectId
      = some { o with connections :=
          [⟨s.name, ⟨h.nextCallableId, makeCallableName f.typeName, .plain f.functionId⟩, 0⟩,
           ⟨s.name, ⟨h.nextCallableId + 1, makeCallableName f.typeName, .plain f.functionId⟩, 0⟩] }
    ∧ h.nextCallableId ≠ h.nextCallableId + 1
    ∧ (s.connectG f (s.connectG f h)).emitSignal s.objectId s.name args
      = [⟨h.nextCallableId, .plain f.functionId, args, .invoked⟩,
         ⟨h.nextCallableId + 1, .plain f.functionId, args, .invoked⟩] := by
  have hb1 : ({ h with nextCallableId := h.nextCallableId + 1 } : Host).lookupObj s.objectId
      = some o := hl
  have ha := connectG_eq h s f o hl
  rw [hc] at ha
  simp only [List.nil_append] at ha
  have hl1 : (s.connectG f h).lookupObj s.objectId
      = some { o with connections :=
          [⟨s.name, ⟨h.nextCallableId, makeCallableName f.typeName, .plain f.functionId⟩, 0⟩] } := by
    rw [ha]
    exact lookupObj_setObj_self _ s.objectId _ o hb1
  have hnc1 : (s.connectG f h).nextCallableId = h.nextCallableId + 1 := by
    rw [ha]
    rfl
  have hb2 : ({ s.connectG f h with
        nextCallableId := h.nextCallableId + 1 + 1 } : Host).lookupObj s.objectId
      = some { o with connections :=
          [⟨s.name, ⟨h.nextCallableId, makeCallableName f.typeName, .plain f.functionId⟩, 0⟩] } := hl1
  have ha2 := connectG_eq (s.connectG f h) s f _ hl1
  rw [hnc1] at ha2
  simp only [List.singleton_append] at ha2
  have hl2 : (s.connectG f (s.connectG f h)).lookupObj s.objectId
      = some { o with connections :=
          [⟨s.name, ⟨h.nextCallableId, makeCallableName f.typeName, .plain f.functionId⟩, 0⟩,
           ⟨s.name, ⟨h.nextCallableId + 1, makeCallableName f.typeName, .plain f.functionId⟩, 0⟩] } := by
    rw [ha2]
    exact lookupObj_setObj_self _ s.objectId _ _ hb2
  refine ⟨hl2, by omega, ?_⟩
  simp [Host.emitSignal, hl2, invokeCallable]

/-- Witness for the C5 theorem: double registration of one receiver on a
concrete host, followed by one emit. -/
theorem connect_no_dedup_double_invoke_witness :
    (Host.empty.createObject false 1).1.lookupObj 0 = some ⟨false, 1, .free, [], .nil, some 0⟩
    ∧ (TypedSignal.connectG ⟨0, "changed"⟩ ⟨"F", 3⟩
        (TypedSignal.connectG ⟨0, "changed"⟩ ⟨"F", 3⟩
          (Host.empty.createObject false 1).1)).emitSignal 0 "changed" [Variant.nil]
      = [⟨0, .plain 3, [Variant.nil], .invoked⟩, ⟨1, .plain 3, [Variant.nil], .invoked⟩] :=
  ⟨by decide,
    (connect_no_dedup_double_invoke (Host.empty.createObject false 1).1 ⟨0, "changed"⟩ ⟨"F", 3⟩
      ⟨false, 1, .free, [], .nil, some 0⟩ [Variant.nil] (by decide) rfl).2.2⟩

/-- Claim C8: finalizing a ConnectBuilder with done registers the adapter
exactly as the direct connect would, with the accumulated flags additionally
applied; done with no flags set is equal to a direct connect. -/
theorem builder_done_equals_connect (h : Host) (s : TypedSignal) (f : Receiver) (fl : Nat)
    (o : HostObject) (hl : h.lookupObj s.objectId = some o) :
    ConnectBuilder.done s.connectBuilder f h = s.connectG f h
    ∧ ((s.connectBuilder.withFlags fl).done f h).lookupObj s.objectId
      = some { o with connections := o.connections
          ++ [⟨s.name, ⟨h.nextCallableId, makeCallableName f.typeName, .plain f.functionId⟩, fl⟩] }
    ∧ (s.connectG f h).lookupObj s.objectId
      = some { o with connections := o.connections
          ++ [⟨s.name, ⟨h.nextCallableId, makeCallableName f.typeName, .plain f.functionId⟩, 0⟩] } := by
  have hb1 : ({ h with nextCallableId := h.nextCallableId + 1 } : Host).lookupObj s.objectId
      = some o := hl
  refine ⟨rfl, ?_, ?_⟩
  · have hEq : (s.connectBuilder.withFlags fl).done f h
        = Host.setObj { h with nextCallableId := h.nextCallableId + 1 } s.objectId
            { o with connections := o.connections
              ++ [⟨s.name, ⟨h.nextCallableId, makeCallableName f.typeName, .plain f.functionId⟩, fl⟩] } := by
      simp [ConnectBuilder.done, TypedSignal.connectBuilder, ConnectBuilder.withFlags,
        TypedSignal.innerConnectUntyped, Host.fromLocalFn, Host.connectAppend, hb1]
    rw [hEq]
    exact lookupObj_setObj_self _ s.objectId _ o hb1
  · have hEq : s.connectG f h
        = Host.setObj { h with nextCallableId := h.nextCallableId + 1 } s.objectId
            { o with connections := o.connections
              ++ [⟨s.name, ⟨h.nextCallableId, makeCallableName f.typeName, .plain f.functionId⟩, 0⟩] } := by
      simp [TypedSignal.connectG, TypedSignal.innerConnectGodotFn, Host.fromLocalFn,
        Host.connectAppend, hb1]
    rw [hEq]
    exact lookupObj_setObj_self _ s.objectId _ o hb1

/-- Witness for the C8 theorem: builder finalization and direct connect on a
concrete host produce the identical host state. -/
theorem builder_done_equals_connect_witness :
    (Host.empty.createObject false 1).1.lookupObj 0 = some ⟨false, 1, .free, [], .nil, some 0⟩
    ∧ ConnectBuilder.done (TypedSignal.connectBuilder ⟨0, "changed"⟩) ⟨"F", 3⟩
        (Host.empty.createObject false 1).1
      = TypedSignal.connectG ⟨0, "changed"⟩ ⟨"F", 3⟩ (Host.empty.createObject false 1).1 :=
  ⟨by decide,
    (builder_done_equals_connect (Host.empty.createObject false 1).1 ⟨0, "changed"⟩ ⟨"F", 3⟩ 1
      ⟨false, 1, .free, [], .nil, some 0⟩ (by decide)).1⟩

/-- Claim C9: adapters created by connect or connect_self acquire the exclusive
mutable guard (bind_mut) on the receiver object for the duration of the
receiver call; invoking them with no guard outstanding succeeds, while emitting
the signal with any guard outstanding on the receiver yields the fatal
guard-conflict error. -/
theorem connected_method_requires_bind_mut (h : Host) (s : TypedSignal) (rid : Nat)
    (m : Receiver) (o ro : HostObject) (args : List Variant)
    (hs : h.lookupObj s.objectId = some o) (hc : o.connections = []) (hgo : o.guard = .free)
    (hr : h.lookupObj rid = some ro) (hgr : ro.guard = .free) (hne : rid ≠ s.objectId) :
    (s.connect rid m h).emitSignal s.objectId s.name args
      = [⟨h.nextCallableId, .boundMut rid m.functionId, args, .invoked⟩]
    ∧ Gd.bindMut (s.connect rid m h) ⟨rid⟩
      = .ok ((s.connect rid m h).setObj rid { ro with guard := .exclusive })
    ∧ ((s.connect rid m h).setObj rid { ro with guard := .exclusive }).emitSignal
        s.objectId s.name args
      = [⟨h.nextCallableId, .boundMut rid m.functionId, args, .guardConflict⟩]
    ∧ Gd.bind (s.connect rid m h) ⟨rid⟩
      = .ok ((s.connect rid m h).setObj rid { ro with guard := .shared 1 })
    ∧ ((s.connect rid m h).setObj rid { ro with guard := .shared 1 }).emitSignal
        s.objectId s.name args
      = [⟨h.nextCallableId, .boundMut rid m.functionId, args, .guardConflict⟩]
    ∧ (s.connectSelf m h).emitSignal s.objectId s.name args
      = [⟨h.nextCallableId, .boundMut s.objectId m.functionId, args, .invoked⟩]
    ∧ Gd.bindMut (s.connectSelf m h) ⟨s.objectId⟩
      = .ok ((s.connectSelf m h).setObj s.objectId
          { o with
            connections :=
              [⟨s.name, ⟨h.nextCallableId, makeCallableName m.typeName,
                .boundMut s.objectId m.functionId⟩, 0⟩],
            guard := .exclusive })
    ∧ ((s.connectSelf m h).setObj s.objectId
          { o with
            connections :=
              [⟨s.name, ⟨h.nextCallableId, makeCallableName m.typeName,
                .boundMut s.objectId m.functionId⟩, 0⟩],
            guard := .exclusive }).emitSignal s.objectId s.name args
      = [⟨h.nextCallableId, .boundMut s.objectId m.functionId, args, .guardConflict⟩] := by
  have hbs : ({ h with nextCallableId := h.nextCallableId + 1 } : Host).lookupObj s.objectId
      = some o := hs
  have hbr : ({ h with nextCallableId := h.nextCallableId + 1 } : Host).lookupObj rid
      = some ro := hr
  have haC : s.connect rid m h
      = Host.setObj { h with nextCallableId := h.nextCallableId + 1 } s.objectId
          { o with connections :=
            [⟨s.name, ⟨h.nextCallableId, makeCallableName m.typeName,
              .boundMut rid m.functionId⟩, 0⟩] } := by
    simp [TypedSignal.connect, TypedSignal.innerConnectGodotFn, Host.fromLocalFn,
      Host.connectAppend, hbs, hc]
  have hlook1 : (s.connect rid m h).lookupObj s.objectId
      = some { o with connections :=
          [⟨s.name, ⟨h.nextCallableId, makeCallableName m.typeName,
            .boundMut rid m.functionId⟩, 0⟩] } := by
    rw [haC]
    exact lookupObj_setObj_self _ s.objectId _ o hbs
  have hlookr : (s.connect rid m h).lookupObj rid = some ro := by
    rw [haC, lookupObj_setObj_ne _ s.objectId rid _ (Ne.symm hne)]
    exact hbr
  have haS : s.connectSelf m h
      = Host.setObj { h with nextCallableId := h.nextCallableId + 1 } s.objectId
          { o with connections :=
            [⟨s.name, ⟨h.nextCallableId, makeCallableName m.typeName,
              .boundMut s.objectId m.functionId⟩, 0⟩] } := by
    simp [TypedSignal.connectSelf, TypedSignal.innerConnectGodotFn, Host.fromLocalFn,
      Host.connectAppend, hbs, hc]
  have hlookS : (s.connectSelf m h).lookupObj s.objectId
      = some { o with connections :=
          [⟨s.name, ⟨h.nextCallableId, makeCallableName m.typeName,
            .boundMut s.objectId m.functionId⟩, 0⟩] } := by
    rw [haS]
    exact lookupObj_setObj_self _ s.objectId _ o hbs
  refine ⟨?_, ?_, ?_, ?_, ?_, ?_, ?_, ?_⟩
  · simp [Host.emitSignal, hlook1, invokeCallable, hlookr, hgr]
  · simp [Gd.bindMut, hlookr, hgr]
  · have hl3s : (((s.connect rid m h).setObj rid { ro with guard := .exclusive })).lookupObj
        s.objectId
        = some { o with connections :=
            [⟨s.name, ⟨h.nextCallableId, makeCallableName m.typeName,
              .boundMut rid m.functionId⟩, 0⟩] } := by
      rw [lookupObj_setObj_ne _ rid s.objectId _ hne]
      exact hlook1
    have hl3r : (((s.connect rid m h).setObj rid { ro with guard := .exclusive })).lookupObj rid
        = some { ro with guard := .exclusive } :=
      lookupObj_setObj_self _ rid _ ro hlookr
    simp [Host.emitSignal, hl3s, invokeCallable, hl3r]
  · simp [Gd.bind, hlookr, hgr]
  · have hl5s : (((s.connect rid m h).setObj rid { ro with guard := .shared 1 })).lookupObj
        s.objectId
        = some { o with connections :=
            [⟨s.name, ⟨h.nextCallableId, makeCallableName m.typeName,
              .boundMut rid m.functionId⟩, 0⟩] } := by
      rw [lookupObj_setObj_ne _ rid s.objectId _ hne]
      exact hlook1
    have hl5r : (((s.connect rid m h).setObj rid { ro with guard := .shared 1 })).lookupObj rid
        = some { ro with guard := .shared 1 } :=
      lookupObj_setObj_self _ rid _ ro hlookr
    simp [Host.emitSignal, hl5s, invokeCallable, hl5r]
  · simp [Host.emitSignal, hlookS, invokeCallable, hgo]
  · simp [Gd.bindMut, hlookS, hgo]
  · have hl4 : ((s.connectSelf m h).setObj s.objectId
        { o with
          connections :=
            [⟨s.name, ⟨h.nextCallableId, makeCallableName m.typeName,
              .boundMut s.objectId m.functionId⟩, 0⟩],
          guard := .exclusive }).lookupObj s.objectId
        = some { o with
            connections :=
              [⟨s.name, ⟨h.nextCallableId, makeCallableName m.typeName,
                .boundMut s.objectId m.functionId⟩, 0⟩],
            guard := .exclusive } :=
      lookupObj_setObj_self _ s.objectId _ _ hlookS
    simp [Host.emitSignal, hl4, invokeCallable]

/-- Witness for the C9 theorem: signal object and a distinct receiver object on
a concrete host, emit succeeding with no guard outstanding. -/
theorem connected_method_requires_bind_mut_witness :
    (((Host.empty.createObject false 1).1.createObject false 1).1.lookupObj 0
        = some ⟨false, 1, .free, [], .nil, some 0⟩
     ∧ ((Host.empty.createObject false 1).1.createObject false 1).1.lookupObj 1
        = some ⟨false, 1, .free, [], .nil, some 1⟩
     ∧ (1 : Nat) ≠ 0)
    ∧ (TypedSignal.connect ⟨0, "changed"⟩ 1 ⟨"M", 9⟩
        ((Host.empty.createObject false 1).1.createObject false 1).1).emitSignal 0 "changed"
        [Variant.nil]
      = [⟨0, .boundMut 1 9, [Variant.nil], .invoked⟩] :=
  ⟨⟨by decide, by decide, by decide⟩,
    (connected_method_requires_bind_mut
      ((Host.empty.createObject false 1).1.createObject false 1).1 ⟨0, "changed"⟩ 1 ⟨"M", 9⟩
      ⟨false, 1, .free, [], .nil, some 0⟩ ⟨false, 1, .free, [], .nil, some 1⟩ [Variant.nil]
      (by decide) rfl rfl (by decide) rfl (by decide)).1⟩

end GdextSpec
